import Mathlib

/-!
Verification of the Scenario Engine of `mcp-foundry` (`src/mcp_modules/scenario.py`).

The development shallowly embeds the Python code that the claims are about:

* the text normalizer `ScenarioParser._normalize_yaml_variables` (four
  `re.sub` passes plus an indentation-repair loop), embedded as character-list
  scanners implementing exactly the regular expressions of the source;
* the step-kind canonicalizer inside `ScenarioParser._parse_step`
  (alias table, substring/word similarity fallback, `action` catch-all);
* the scenario parser `ScenarioParser._parse_scenario` / `_parse_step`;
* the assertion evaluator `ScenarioExecutor._check_expectation`;
* the step handlers and the `execute_scenario` loop of `ScenarioExecutor`.

Python values flowing out of `yaml.safe_load` are modelled by the inductive
type `YVal` (None, str, int, bool, list, dict).  Python dictionaries are
association lists in insertion order with unique keys; `d[k] = v` keeps the
original key object and position on update, as in CPython.  Exceptions are
explicit `PyError` values; `try/except` boundaries become `Except`/`Option`
plumbing.  Subprocess invocations (`subprocess.run` of `cast`/`anvil`) are an
oracle `List String → SubprocResult`; every handler also reports the list of
subprocess command lines it issued, which lets theorems state that an error is
raised *before* any RPC call is made.  Wall-clock time (`execution_time`) and
logging/print side effects are not modelled.

String-processing helpers (`lower`, `strip`, `split`, `int(...)`) implement
the CPython behaviour on ASCII text; the scenario language and all claim
inputs are ASCII.
-/

namespace ScenarioSpec

/-- Values produced by `yaml.safe_load` and manipulated by the scenario
engine: Python `None`, `str`, `int`, `bool`, `list` and `dict`. -/
inductive YVal where
  | vnone : YVal
  | vstr (s : String) : YVal
  | vint (n : Int) : YVal
  | vbool (b : Bool) : YVal
  | vlist (xs : List YVal) : YVal
  | vdict (xs : List (YVal × YVal)) : YVal
deriving Repr

mutual

/-- Python `==` on the modelled values.  Python compares `bool` and `int`
numerically (`True == 1`).  Dict keys in CPython must be hashable, so the
engine only ever compares scalar keys; the structural list/dict cases are
included for totality. -/
def pyEq : YVal → YVal → Bool
  | .vnone, .vnone => true
  | .vstr a, .vstr b => a == b
  | .vint a, .vint b => a == b
  | .vbool a, .vbool b => a == b
  | .vbool a, .vint b => (if a then (1 : Int) else 0) == b
  | .vint a, .vbool b => a == (if b then (1 : Int) else 0)
  | .vlist a, .vlist b => pyEqList a b
  | .vdict a, .vdict b => pyEqPairs a b
  | _, _ => false

/-- Elementwise `==` on lists. -/
def pyEqList : List YVal → List YVal → Bool
  | [], [] => true
  | x :: xs, y :: ys => pyEq x y && pyEqList xs ys
  | _, _ => false

/-- Entrywise `==` on dict entries. -/
def pyEqPairs : List (YVal × YVal) → List (YVal × YVal) → Bool
  | [], [] => true
  | (k, v) :: xs, (k', v') :: ys => pyEq k k' && pyEq v v' && pyEqPairs xs ys
  | _, _ => false

end

/-- `type(v).__name__` for the modelled values. -/
def pyTypeName : YVal → String
  | .vnone => "NoneType"
  | .vstr _ => "str"
  | .vint _ => "int"
  | .vbool _ => "bool"
  | .vlist _ => "list"
  | .vdict _ => "dict"

mutual

/-- Python `repr` (ASCII strings are wrapped in single quotes; escape
sequences inside strings are not reproduced, the engine never prints
strings containing quotes). -/
def pyRepr : YVal → String
  | .vnone => "None"
  | .vstr s => "'" ++ s ++ "'"
  | .vint n => toString n
  | .vbool b => if b then "True" else "False"
  | .vlist xs => "[" ++ pyReprSeq xs ++ "]"
  | .vdict xs => "\x7b" ++ pyReprPairs xs ++ "\x7d"

/-- Comma-separated `repr`s of list elements. -/
def pyReprSeq : List YVal → String
  | [] => ""
  | [x] => pyRepr x
  | x :: y :: xs => pyRepr x ++ ", " ++ pyReprSeq (y :: xs)

/-- Comma-separated `repr`s of dict entries. -/
def pyReprPairs : List (YVal × YVal) → String
  | [] => ""
  | [(k, v)] => pyRepr k ++ ": " ++ pyRepr v
  | (k, v) :: p :: xs => pyRepr k ++ ": " ++ pyRepr v ++ ", " ++ pyReprPairs (p :: xs)

end

/-- Python `str()` of a value (as used by f-strings and `str(arg)`). -/
def pyStr : YVal → String
  | .vnone => "None"
  | .vstr s => s
  | .vint n => toString n
  | .vbool b => if b then "True" else "False"
  | .vlist xs => pyRepr (.vlist xs)
  | .vdict xs => pyRepr (.vdict xs)

/-- Python truthiness of a value. -/
def pyTruthy : YVal → Bool
  | .vnone => false
  | .vstr s => s ≠ ""
  | .vint n => n ≠ 0
  | .vbool b => b
  | .vlist xs => !xs.isEmpty
  | .vdict xs => !xs.isEmpty

/-- Errors raised by the engine; the payload is the exception message, which
is also what `str(e)` yields for these exception classes. -/
inductive PyError where
  | valueError (msg : String) : PyError
  | runtimeError (msg : String) : PyError
  | assertionError (msg : String) : PyError
  | typeError (msg : String) : PyError
  | attributeError (msg : String) : PyError
deriving Repr, DecidableEq

/-- `str(e)` of a raised exception, as embedded into `ExecutionResult.error`. -/
def errMsg : PyError → String
  | .valueError m => m
  | .runtimeError m => m
  | .assertionError m => m
  | .typeError m => m
  | .attributeError m => m

/-- First-match lookup in a Python dict (association list), comparing keys
with Python `==`. -/
def yfind {α : Type} : List (YVal × α) → YVal → Option α
  | [], _ => none
  | (k', v) :: rest, k => if pyEq k' k then some v else yfind rest k

/-- `d.get(key, default)` for a string key. -/
def pyGetD (d : List (YVal × YVal)) (key : String) (dflt : YVal) : YVal :=
  (yfind d (.vstr key)).getD dflt

/-- `key in d` for a string key. -/
def hasKeyS (d : List (YVal × YVal)) (key : String) : Bool :=
  (yfind d (.vstr key)).isSome

/-- `d[k] = v`: update in place if an equal key exists (keeping the original
key object and position), otherwise append. -/
def dictSet {α : Type} : List (YVal × α) → YVal → α → List (YVal × α)
  | [], k, v => [(k, v)]
  | (k', v') :: rest, k, v =>
      if pyEq k' k then (k', v) :: rest else (k', v') :: dictSet rest k v

/-- `iter(v)` (as used by `for arg in args`): lists yield elements, strings
yield their characters, dicts yield their keys, everything else raises
`TypeError`. -/
def pyIter : YVal → Except PyError (List YVal)
  | .vlist xs => .ok xs
  | .vstr s => .ok (s.data.map (fun c => .vstr (String.mk [c])))
  | .vdict d => .ok (d.map Prod.fst)
  | v => .error (.typeError ("'" ++ pyTypeName v ++ "' object is not iterable"))

/-- Characters stripped by Python `str.strip()` (the ASCII whitespace set;
also the class matched by `\s` in the normalizer's regular expressions). -/
def isPyWs (c : Char) : Bool :=
  c = ' ' || c = '\t' || c = '\n' || c = '\r' || c = '\x0b' || c = '\x0c'

/-- Left strip. -/
def pyLstrip (l : List Char) : List Char := l.dropWhile isPyWs

/-- Right strip (drops a maximal trailing whitespace run). -/
def pyRstrip : List Char → List Char
  | [] => []
  | c :: rest =>
      let r := pyRstrip rest
      if isPyWs c && r.isEmpty then [] else c :: r

/-- `str.strip()` on a character list. -/
def pyStripL (l : List Char) : List Char := pyRstrip (pyLstrip l)

/-- `str.strip()` on a `String`. -/
def pyStripS (s : String) : String := String.mk (pyStripL s.data)

/-- ASCII lower-casing of one character (Python `str.lower` restricted to the
ASCII inputs the engine manipulates). -/
def asciiLower (c : Char) : Char :=
  if 'A' ≤ c && c ≤ 'Z' then Char.ofNat (c.toNat + 32) else c

/-- `str.lower()` on a character list. -/
def pyLowerL (l : List Char) : List Char := l.map asciiLower

/-- `str.lower()` on a `String`. -/
def pyLowerS (s : String) : String := String.mk (pyLowerL s.data)

/-- Python substring test `needle in hay` on character lists
(the empty needle is contained in everything). -/
def isSubL : List Char → List Char → Bool
  | n, [] => n.isEmpty
  | n, c :: t => n.isPrefixOf (c :: t) || isSubL n t

/-- Substring test on `String`s. -/
def isSubS (n h : String) : Bool := isSubL n.data h.data

/-- Python `s.split(sep)` for a one-character separator: empty pieces are
kept, and the empty string splits to `[""]`. -/
def splitOnC (sep : Char) : List Char → List (List Char)
  | [] => [[]]
  | c :: rest =>
      if c = sep then [] :: splitOnC sep rest
      else
        match splitOnC sep rest with
        | p :: ps => (c :: p) :: ps
        | [] => [[c]]

/-- Helper for Python whitespace `str.split()` (no argument): accumulates the
current word (reversed) and drops empty pieces. -/
def pySplitWsGo : List Char → List Char → List (List Char)
  | [], acc => if acc.isEmpty then [] else [acc.reverse]
  | c :: rest, acc =>
      if isPyWs c then
        if acc.isEmpty then pySplitWsGo rest [] else acc.reverse :: pySplitWsGo rest []
      else pySplitWsGo rest (c :: acc)

/-- Python `str.split()` without arguments: split on whitespace runs,
dropping empty pieces. -/
def pySplitWsL (l : List Char) : List (List Char) := pySplitWsGo l []

/-! ### Python `int()` parsing

`int(s)` / `int(s, 16)` as used by `_check_expectation` and
`_fund_test_accounts`: surrounding whitespace is stripped, an optional sign
is allowed, base 16 accepts an optional `0x`/`0X` prefix, and single
underscores may separate digits (directly after the prefix as well). -/

/-- Value of a digit character in the given base (10 or 16). -/
def digitVal (base : Nat) (c : Char) : Option Nat :=
  if '0' ≤ c && c ≤ '9' then
    if c.toNat - '0'.toNat < base then some (c.toNat - '0'.toNat) else none
  else if base = 16 && 'a' ≤ c && c ≤ 'f' then some (c.toNat - 'a'.toNat + 10)
  else if base = 16 && 'A' ≤ c && c ≤ 'F' then some (c.toNat - 'A'.toNat + 10)
  else none

/-- Digit run continuation: underscores must sit between digits. -/
def magGo (base : Nat) (acc : Nat) : List Char → Option Nat
  | [] => some acc
  | c :: rest =>
      if c = '_' then
        match rest with
        | [] => none
        | c2 :: r =>
            match digitVal base c2 with
            | some d => magGo base (acc * base + d) r
            | none => none
      else
        match digitVal base c with
        | some d => magGo base (acc * base + d) rest
        | none => none

/-- Digit run start: at least one digit; a leading underscore is only legal
directly after a base prefix (`allowU`). -/
def magStart (base : Nat) (allowU : Bool) : List Char → Option Nat
  | [] => none
  | c :: rest =>
      if c = '_' then
        if allowU then
          match rest with
          | [] => none
          | c2 :: r =>
              match digitVal base c2 with
              | some d => magGo base d r
              | none => none
        else none
      else
        match digitVal base c with
        | some d => magGo base d rest
        | none => none

/-- Magnitude after the sign: for base 16 an optional `0x`/`0X` prefix. -/
def magPrefixed (base : Nat) (l : List Char) : Option Nat :=
  if base = 16 then
    match l with
    | '0' :: rest =>
        match rest with
        | 'x' :: rest' => magStart 16 true rest'
        | 'X' :: rest' => magStart 16 true rest'
        | _ => magStart 16 false ('0' :: rest)
    | _ => magStart 16 false l
  else magStart base false l

/-- `int(s, base)` on a character list: `none` models `ValueError`. -/
def pyIntL (base : Nat) (l : List Char) : Option Int :=
  match pyStripL l with
  | [] => none
  | c :: rest =>
      if c = '+' then (magPrefixed base rest).map Int.ofNat
      else if c = '-' then (magPrefixed base rest).map (fun n => -(n : Int))
      else (magPrefixed base (c :: rest)).map Int.ofNat

/-- `int(s)` (base 10). -/
def pyInt10 (s : String) : Option Int := pyIntL 10 s.data

/-- `int(s, 16)`. -/
def pyInt16 (s : String) : Option Int := pyIntL 16 s.data

/-! ### Step kinds and canonicalization (`StepType`, `_parse_step`)

`_parse_step` canonicalizes a step-kind token in this order (scenario.py
lines 292-367): the alias table is consulted *first* (unconditionally, even
for tokens that already are canonical kinds — in particular `action` is an
alias of `send`); then exact membership in the supported set; then the
substring/word similarity search; finally the `action` fallback.  The Python
code iterates `supported_step_types`, a `set` with unspecified iteration
order; `stepKindNames` fixes the enum declaration order, and every property
proved below is independent of that order. -/

/-- The closed set of step kinds (`StepType` enum). -/
inductive StepType where
  | SEND | CALL | WAIT | TIME_TRAVEL | SNAPSHOT | REVERT | ASSERT
  | DEPLOY | MINE | SET_BALANCE | SET_STORAGE | LABEL | ACTION
deriving Repr, DecidableEq

/-- `StepType.value` strings. -/
def stepTypeValue : StepType → String
  | .SEND => "send"
  | .CALL => "call"
  | .WAIT => "wait"
  | .TIME_TRAVEL => "time_travel"
  | .SNAPSHOT => "snapshot"
  | .REVERT => "revert"
  | .ASSERT => "assert"
  | .DEPLOY => "deploy"
  | .MINE => "mine"
  | .SET_BALANCE => "set_balance"
  | .SET_STORAGE => "set_storage"
  | .LABEL => "label"
  | .ACTION => "action"

/-- `supported_step_types`: the 13 canonical kind strings. -/
def stepKindNames : List String :=
  ["send", "call", "wait", "time_travel", "snapshot", "revert", "assert",
   "deploy", "mine", "set_balance", "set_storage", "label", "action"]

/-- `StepType(s)`: the enum constructor lookup; `none` models the
`ValueError` raised for a string that is not a member value. -/
def stepTypeOfString (s : String) : Option StepType :=
  if s = "send" then some .SEND
  else if s = "call" then some .CALL
  else if s = "wait" then some .WAIT
  else if s = "time_travel" then some .TIME_TRAVEL
  else if s = "snapshot" then some .SNAPSHOT
  else if s = "revert" then some .REVERT
  else if s = "assert" then some .ASSERT
  else if s = "deploy" then some .DEPLOY
  else if s = "mine" then some .MINE
  else if s = "set_balance" then some .SET_BALANCE
  else if s = "set_storage" then some .SET_STORAGE
  else if s = "label" then some .LABEL
  else if s = "action" then some .ACTION
  else none

/-- The `step_aliases` table, in source order. -/
def aliasTable : List (String × String) :=
  [("action", "send"), ("transaction", "send"), ("invoke", "send"),
   ("execute", "send"), ("query", "call"), ("read", "call"),
   ("check", "assert"), ("verify", "assert"), ("expect", "assert"),
   ("sleep", "wait"), ("pause", "wait"), ("delay", "wait"),
   ("jump", "time_travel"), ("advance", "time_travel"),
   ("save", "snapshot"), ("restore", "revert"), ("rollback", "revert"),
   ("create", "deploy"), ("instantiate", "deploy"),
   ("comment", "label"), ("note", "label"), ("log", "label"),
   ("print", "label"),
   ("send_transaction", "send"), ("call_function", "call"),
   ("assert_condition", "assert"), ("wait_blocks", "wait"),
   ("time_travel_forward", "time_travel"), ("create_snapshot", "snapshot"),
   ("revert_to_snapshot", "revert"), ("deploy_contract", "deploy"),
   ("mine_blocks", "mine"), ("set_account_balance", "set_balance"),
   ("set_contract_storage", "set_storage")]

/-- First-match lookup in a string association list. -/
def lookupStr : List (String × String) → String → Option String
  | [], _ => none
  | (a, b) :: rest, k => if a == k then some b else lookupStr rest k

/-- The similarity scan of `_parse_step`: a supported kind is similar to the
token when one contains the other as a substring, or one of the token's
underscore-delimited words equals the kind. -/
def similarTypes (t : String) : List String :=
  stepKindNames.filter (fun st =>
    isSubS (pyLowerS t) (pyLowerS st) || isSubS (pyLowerS st) (pyLowerS t) ||
    ((splitOnC '_' (pyLowerS t).data).map String.mk).contains (pyLowerS st))

/-- The best-match loop over `similar_types`: stop at the first candidate
that occurs inside the token, otherwise prefer longer candidates; the initial
best is the head of the list (which the loop also visits). -/
def pickBest (t : String) : List String → String → String
  | [], best => best
  | s :: rest, best =>
      if isSubS (pyLowerS s) (pyLowerS t) then s
      else if best.length < s.length then pickBest t rest s
      else pickBest t rest best

/-- The canonical kind string chosen by `_parse_step` for a step-kind token:
alias table first (on the lower-cased token), then exact membership, then the
similarity fallback, then `action`. -/
def canonToken (t : String) : String :=
  let t1 := match lookupStr aliasTable (pyLowerS t) with
    | some v => v
    | none => t
  if stepKindNames.contains t1 then t1
  else
    match similarTypes t1 with
    | [] => "action"
    | s :: rest => pickBest t1 (s :: rest) s

/-- Canonicalization of a step-kind token to a `StepType` value
(`StepType(step_type_str)` applied to `canonToken`'s choice). -/
def canonicalizeToken (t : String) : Option StepType :=
  stepTypeOfString (canonToken t)

/-! ### Text normalizer (`_normalize_yaml_variables`)

The four `re.sub` passes are embedded as left-to-right scanners with
CPython's leftmost, non-overlapping match semantics.  Each pattern here is
deterministic (every `X*`/`X+` piece is followed by a character its class
cannot match, so greedy matching needs no backtracking).  The scanners use a
fuel argument equal to the input length for Lean's termination checker; each
iteration consumes at least one character of the input, so the fuel is never
exhausted and the `fuel = 0` branch (which returns the rest unchanged) is
unreachable. -/

/-- Identifier start for `[a-zA-Z_]`. -/
def isIdentStart (c : Char) : Bool :=
  ('a' ≤ c && c ≤ 'z') || ('A' ≤ c && c ≤ 'Z') || c = '_'

/-- Identifier continuation for `[a-zA-Z0-9_]`. -/
def isIdentCont (c : Char) : Bool :=
  isIdentStart c || ('0' ≤ c && c ≤ '9')

/-- ASCII decimal digit (`\d`). -/
def isAsciiDigit (c : Char) : Bool := '0' ≤ c && c ≤ '9'

/-- Word character (`\w`). -/
def isWordChar (c : Char) : Bool := isIdentCont c

/-- Pass 1: `re.sub(r'\$\{([^}]+)\}', r'"$\1"', s)` — rewrite `${token}` to
`"$token"`. -/
def sub1Go : Nat → List Char → List Char
  | 0, l => l
  | fuel + 1, l =>
      match l with
      | [] => []
      | '$' :: '{' :: rest =>
          match rest.span (fun c => c ≠ '}') with
          | (body, '}' :: rest') =>
              if body.isEmpty then '$' :: sub1Go fuel ('{' :: rest)
              else '"' :: '$' :: (body ++ '"' :: sub1Go fuel rest')
          | _ => '$' :: sub1Go fuel ('{' :: rest)
      | c :: rest => c :: sub1Go fuel rest

/-- Pass 2: `re.sub(r'(?<!["\'])\$([a-zA-Z_][a-zA-Z0-9_]*)', r'"$\1"', s)` —
quote a bare `$token` unless the `$` directly follows a quote.  The
lookbehind inspects the original text, so `prev` is the previously consumed
original character. -/
def sub2Go : Nat → Option Char → List Char → List Char
  | 0, _, l => l
  | fuel + 1, prev, l =>
      match l with
      | [] => []
      | '$' :: rest =>
          if prev = some '"' || prev = some '\'' then '$' :: sub2Go fuel (some '$') rest
          else
            match rest with
            | c :: _ =>
                if isIdentStart c then
                  match rest.span isIdentCont with
                  | (ident, rest') =>
                      '"' :: '$' :: (ident ++ '"' :: sub2Go fuel (ident.getLastD '$') rest')
                else '$' :: sub2Go fuel (some '$') rest
            | [] => ['$']
      | c :: rest => c :: sub2Go fuel (some c) rest

/-- Pass 3: `re.sub(r'"\$artifacts:([^"]+)"\.(\w+)', r'"$artifacts:\1.\2"', s)` —
pull a `.field` access inside the quoted `$artifacts:` string. -/
def sub3Go : Nat → List Char → List Char
  | 0, l => l
  | fuel + 1, l =>
      match l with
      | [] => []
      | c :: rest =>
          if ("\"$artifacts:".data).isPrefixOf (c :: rest) then
            let afterLit := (c :: rest).drop 12
            match afterLit.span (fun ch => ch ≠ '"') with
            | (body, '"' :: '.' :: rest') =>
                if body.isEmpty then c :: sub3Go fuel rest
                else
                  match rest'.span isWordChar with
                  | (word, rest'') =>
                      if word.isEmpty then c :: sub3Go fuel rest
                      else
                        ("\"$artifacts:".data ++ body ++ '.' :: word ++ ['"'])
                          ++ sub3Go fuel rest''
            | _ => c :: sub3Go fuel rest
          else c :: sub3Go fuel rest

/-- Match attempt for pass 4 at the current position:
`(\s*-\s*assert:\s*)"([^"]+)"\s*==\s*(\d+)`.  Returns the replacement text
(`\1\n    value: "\2"\n    expect: "==\3"`) and the rest of the input. -/
def matchAssertAt (l : List Char) : Option (List Char × List Char) :=
  let (ws1, r1) := l.span isPyWs
  match r1 with
  | '-' :: r2 =>
      let (ws2, r3) := r2.span isPyWs
      if ("assert:".data).isPrefixOf r3 then
        let r4 := r3.drop 7
        let (ws3, r5) := r4.span isPyWs
        match r5 with
        | '"' :: r6 =>
            match r6.span (fun ch => ch ≠ '"') with
            | (body, '"' :: r8) =>
                if body.isEmpty then none
                else
                  let (_, r9) := r8.span isPyWs
                  match r9 with
                  | '=' :: '=' :: r10 =>
                      let (_, r11) := r10.span isPyWs
                      match r11.span isAsciiDigit with
                      | (digits, r12) =>
                          if digits.isEmpty then none
                          else
                            some (ws1 ++ '-' :: ws2 ++ "assert:".data ++ ws3 ++
                                  "\n    value: \"".data ++ body ++
                                  "\"\n    expect: \"==".data ++ digits ++ ['"'],
                                  r12)
                  | _ => none
            | _ => none
        | _ => none
      else none
  | _ => none

/-- Pass 4: rewrite the inline `- assert: "name" == 123` shorthand into the
structured `value:`/`expect:` form. -/
def sub4Go : Nat → List Char → List Char
  | 0, l => l
  | fuel + 1, l =>
      match matchAssertAt l with
      | some (rep, rest) => rep ++ sub4Go fuel rest
      | none =>
          match l with
          | [] => []
          | c :: rest => c :: sub4Go fuel rest

/-- `line.strip().endswith(':')`. -/
def lastIsColon (s : String) : Bool :=
  match (pyStripL s.data).getLast? with
  | some ':' => true
  | _ => false

/-- First character test (`line.startswith(c)` for a one-character prefix). -/
def headIs (s : String) (c : Char) : Bool :=
  match s.data with
  | c' :: _ => c' = c
  | [] => false

/-- `len(line) - len(line.lstrip())`: the leading-whitespace count. -/
def leadWsCount (s : String) : Nat := (s.data.takeWhile isPyWs).length

/-- The indentation-repair loop of `_normalize_yaml_variables`: after a line
whose stripped form ends in `:`, a following non-empty line with no leading
space/tab is re-indented two columns past the parent; the original following
line is overwritten with `''` (so the output keeps an empty line in its
place) and is not considered as a parent itself.  The loop advances one line
per iteration, so fuel equal to the line count is never exhausted. -/
def indentFixGo : Nat → List String → List String
  | 0, l => l
  | _ + 1, [] => []
  | _ + 1, [x] => [x]
  | fuel + 1, x :: y :: rest =>
      if lastIsColon x && !(pyStripS y).isEmpty && !headIs y ' ' && !headIs y '\t' then
        x :: (String.mk (List.replicate (leadWsCount x + 2) ' ') ++ pyStripS y) ::
          indentFixGo fuel ("" :: rest)
      else
        x :: indentFixGo fuel (y :: rest)

/-- `ScenarioParser._normalize_yaml_variables`: the four regex passes
followed by the indentation repair, re-joined with `'\n'`. -/
def normalizeYamlVariables (s : String) : String :=
  let n1 := sub1Go s.data.length s.data
  let n2 := sub2Go n1.length none n1
  let n3 := sub3Go n2.length n2
  let n4 := sub4Go n3.length n3
  let lines := (splitOnC '\n' n4).map String.mk
  String.intercalate "\n" (indentFixGo lines.length lines)

/-! ### Assertion evaluator (`ScenarioExecutor._check_expectation`) -/

/-- `int(actual, 16) if actual.startswith('0x') else int(actual)`, together
with the `ValueError` message `int()` raises on failure. -/
def pyActualInt (actual : List Char) : Except PyError Int :=
  match actual with
  | '0' :: 'x' :: rest =>
      match pyIntL 16 ('0' :: 'x' :: rest) with
      | some n => .ok n
      | none => .error (.valueError
          ("invalid literal for int() with base 16: '" ++ String.mk ('0' :: 'x' :: rest) ++ "'"))
  | l =>
      match pyIntL 10 l with
      | some n => .ok n
      | none => .error (.valueError
          ("invalid literal for int() with base 10: '" ++ String.mk l ++ "'"))

/-- `_check_expectation(actual, expected)` on character lists.  The operator
prefix is tested in source order: `==`, `!=`, `>`, `<`; everything else —
including `contains`/`exists`, which the `AssertionType` enum declares but
this function never handles — raises `ValueError`.  An expectation starting
with `>=` or `<=` falls into the `>`/`<` branch, whose operand `"=..."`
then fails `int()` with a `ValueError`. -/
def checkCore (actual expected : List Char) : Except PyError Unit :=
  match expected with
  | '=' :: '=' :: rest =>
      let ev := pyStripL rest
      if actual == ev then .ok ()
      else .error (.assertionError
        ("Expected " ++ String.mk ev ++ ", got " ++ String.mk actual))
  | '!' :: '=' :: rest =>
      let ev := pyStripL rest
      if actual == ev then
        .error (.assertionError
          ("Expected not " ++ String.mk ev ++ ", got " ++ String.mk actual))
      else .ok ()
  | '>' :: rest =>
      match pyIntL 10 (pyStripL rest) with
      | none => .error (.valueError
          ("invalid literal for int() with base 10: '" ++ String.mk (pyStripL rest) ++ "'"))
      | some ev =>
          match pyActualInt actual with
          | .error e => .error e
          | .ok av =>
              if av ≤ ev then
                .error (.assertionError
                  ("Expected > " ++ toString ev ++ ", got " ++ toString av))
              else .ok ()
  | '<' :: rest =>
      match pyIntL 10 (pyStripL rest) with
      | none => .error (.valueError
          ("invalid literal for int() with base 10: '" ++ String.mk (pyStripL rest) ++ "'"))
      | some ev =>
          match pyActualInt actual with
          | .error e => .error e
          | .ok av =>
              if ev ≤ av then
                .error (.assertionError
                  ("Expected < " ++ toString ev ++ ", got " ++ toString av))
              else .ok ()
  | _ => .error (.valueError ("Unsupported expectation format: " ++ String.mk expected))

/-- `_check_expectation` on `String`s. -/
def checkExpectationStr (actual expected : String) : Except PyError Unit :=
  checkCore actual.data expected.data

/-- `_check_expectation` as called by the executor, where `expected` comes
out of the step's data dict: a non-string expectation raises
`AttributeError` at `expected.startswith`. -/
def checkExpectation (actual : String) (expected : YVal) : Except PyError Unit :=
  match expected with
  | .vstr e => checkCore actual.data e.data
  | v => .error (.attributeError
      ("'" ++ pyTypeName v ++ "' object has no attribute 'startswith'"))

/-! ### Schema parser (`ScenarioParser._parse_scenario` / `_parse_step`) -/

/-- The `Role` dataclass.  All fields hold raw YAML values; the optional
fields default to `None`. -/
structure Role where
  name : YVal
  address : YVal
  privateKey : YVal
  balance : YVal
deriving Repr

/-- The `Step` dataclass: canonical kind plus the kind-specific data dict
(the executor only consults `type` and `data`). -/
structure Step where
  type : StepType
  data : List (YVal × YVal)
  description : YVal
  gasLimit : YVal
  gasPrice : YVal
deriving Repr

/-- The parsed `Scenario` dataclass.  `snapshots` is always created empty by
`__post_init__` and lives in the executor state below. -/
structure ScenarioV where
  name : YVal
  description : YVal
  roles : List (YVal × Role)
  steps : List Step
  contracts : YVal
  timeout : YVal
  gasLimit : YVal
deriving Repr

/-- `len(v)` for the YAML values a step entry can be; non-sized values raise
`TypeError`. -/
def pyLenY : YVal → Except PyError Nat
  | .vstr s => .ok s.length
  | .vlist l => .ok l.length
  | .vdict d => .ok d.length
  | v => .error (.typeError ("object of type '" ++ pyTypeName v ++ "' has no len()"))

/-- The mapping entries of a step value (empty for non-dicts; only used after
an `.items()`/`.keys()` access has succeeded). -/
def pairsOf : YVal → List (YVal × YVal)
  | .vdict d => d
  | _ => []

/-- Key/body extraction of `_parse_step`: a single-key mapping contributes
its only entry; a multi-key mapping contributes the first key that is a
supported kind name, else its first entry.  Non-mapping steps raise
`AttributeError` at `.items()` / `.keys()`. -/
def stepKeyBody (sd : YVal) (n : Nat) : Except PyError (YVal × YVal) :=
  if n = 1 then
    match sd with
    | .vdict (p :: _) => .ok p
    | .vdict [] => .error (.runtimeError "StopIteration")
    | v => .error (.attributeError ("'" ++ pyTypeName v ++ "' object has no attribute 'items'"))
  else
    match sd with
    | .vdict pairs =>
        match pairs.find? (fun p =>
            match p.1 with
            | .vstr s => stepKindNames.contains s
            | _ => false) with
        | some p => .ok p
        | none =>
            match pairs with
            | p :: _ => .ok p
            | [] => .error (.runtimeError "StopIteration")
    | v => .error (.attributeError ("'" ++ pyTypeName v ++ "' object has no attribute 'keys'"))

/-- `ScenarioParser._parse_step`. -/
def parseStep (sd : YVal) : Except PyError Step :=
  match pyLenY sd with
  | .error e => .error e
  | .ok n =>
      if n = 0 then .error (.valueError "Step cannot be empty")
      else
        match stepKeyBody sd n with
        | .error e => .error e
        | .ok (k0, c0) =>
            -- `{type: "deploy", ...}` promotion
            let kc : YVal × YVal :=
              match c0 with
              | .vstr _ =>
                  if pyEq k0 (.vstr "type") then
                    (c0, .vdict ((pairsOf sd).filter (fun p => !pyEq p.1 (.vstr "type"))))
                  else (k0, c0)
              | _ => (k0, c0)
            match kc.1 with
            | .vstr tok =>
                let canon := canonToken tok
                match stepTypeOfString canon with
                | some ty =>
                    let dataDict :=
                      match kc.2 with
                      | .vdict d => d
                      | c => [(.vstr "value", c)]
                    .ok { type := ty, data := dataDict,
                          description := pyGetD dataDict "description" .vnone,
                          gasLimit := pyGetD dataDict "gas_limit" .vnone,
                          gasPrice := pyGetD dataDict "gas_price" .vnone }
                | none => .error (.valueError ("'" ++ canon ++ "' is not a valid StepType"))
            | v => .error (.attributeError ("'" ++ pyTypeName v ++ "' object has no attribute 'lower'"))

/-- Role-table parsing: a string entry is a bare address, a mapping entry
carries `address`/`private_key`/`balance`, anything else is skipped. -/
def parseRolesY : YVal → Except PyError (List (YVal × Role))
  | .vdict items =>
      .ok (items.foldl (fun acc p =>
        match p.2 with
        | .vstr _ => dictSet acc p.1
            { name := p.1, address := p.2, privateKey := .vnone, balance := .vnone }
        | .vdict rd => dictSet acc p.1
            { name := p.1, address := pyGetD rd "address" (.vstr ""),
              privateKey := pyGetD rd "private_key" .vnone,
              balance := pyGetD rd "balance" .vnone }
        | _ => acc) [])
  | v => .error (.attributeError ("'" ++ pyTypeName v ++ "' object has no attribute 'items'"))

/-- Step-list parsing with the per-step `ValueError("Error parsing step i+1: ...")`
wrapper of `_parse_scenario`. -/
def parseSteps (i : Nat) : List YVal → Except PyError (List Step)
  | [] => .ok []
  | sd :: rest =>
      match parseStep sd with
      | .error e => .error (.valueError
          ("Error parsing step " ++ toString (i + 1) ++ ": " ++ errMsg e))
      | .ok s =>
          match parseSteps (i + 1) rest with
          | .error e => .error e
          | .ok ss => .ok (s :: ss)

/-- `ScenarioParser._parse_scenario`: requires `name`; rejects a mapping
with no `steps` entry exactly when it has a single key; parses roles, then
steps (which must be a list), then the remaining fields with their
defaults. -/
def parseScenario (data : List (YVal × YVal)) : Except PyError ScenarioV :=
  if !hasKeyS data "name" then .error (.valueError "Scenario must have 'name' field")
  else if !hasKeyS data "steps" && data.length == 1 then
    .error (.valueError "Invalid scenario format: missing 'steps' field")
  else
    match (if hasKeyS data "roles" then parseRolesY (pyGetD data "roles" .vnone) else .ok []) with
    | .error e => .error e
    | .ok roles =>
        match (if hasKeyS data "steps" then
                 match pyGetD data "steps" .vnone with
                 | .vlist items => parseSteps 0 items
                 | _ => .error (.valueError "'steps' must be a list")
               else .ok []) with
        | .error e => .error e
        | .ok steps =>
            .ok { name := pyGetD data "name" .vnone,
                  description := pyGetD data "description" .vnone,
                  roles := roles, steps := steps,
                  contracts := pyGetD data "contracts" (.vdict []),
                  timeout := pyGetD data "timeout" (.vint 300),
                  gasLimit := pyGetD data "gas_limit" (.vint 30000000) }

/-! ### Executor (`ScenarioExecutor`)

Subprocess calls (`subprocess.run(cmd, capture_output=True, text=True)`) are
an oracle from the command line to its result.  Each handler returns the
(possibly updated) scenario symbol tables, the subprocess command lines it
issued — in order — and the exception it raised, if any; as in the Python
code, an exception raised before a command is issued leaves the call trace
empty and the tables untouched. -/

/-- Result of one `subprocess.run` invocation. -/
structure SubprocResult where
  returncode : Int
  stdout : String
  stderr : String

/-- The external world: maps a command line to its subprocess result. -/
def Oracle : Type := List String → SubprocResult

/-- The mutable symbol tables the executor keeps inside the `Scenario`
object: roles (after `_prepare_roles`), `contracts` and `snapshots`.
Snapshot ids always come from `evm_snapshot` stdout, hence are strings. -/
structure ScenarioState where
  roles : List (YVal × Role)
  contracts : List (YVal × YVal)
  snapshots : List (YVal × String)
deriving Repr

/-- Outcome of one step handler: subprocess calls issued, exception raised
(if any), and the symbol tables afterwards. -/
structure HandlerResult where
  calls : List (List String)
  error : Option PyError
  state : ScenarioState
deriving Repr

/-- First non-string element of a command line (what makes
`subprocess.run` raise `TypeError`). -/
def firstNonStr : List YVal → Option YVal
  | [] => none
  | .vstr _ :: rest => firstNonStr rest
  | v :: _ => some v

/-- All elements of a command line as strings, if they are strings. -/
def cmdStrs : List YVal → Option (List String)
  | [] => some []
  | .vstr s :: rest => (cmdStrs rest).map (s :: ·)
  | _ :: _ => none

/-- `subprocess.run(cmd, ...)`: raises `TypeError` when an argument is not a
string, otherwise asks the oracle. -/
def runCmd (oracle : Oracle) (cmd : List YVal) : Except PyError (List String × SubprocResult) :=
  match cmdStrs cmd with
  | some strs => .ok (strs, oracle strs)
  | none => .error (.typeError
      ("expected str, bytes or os.PathLike object, not " ++
       pyTypeName ((firstNonStr cmd).getD .vnone)))

/-- A handler outcome with no subprocess calls and unchanged state. -/
def pureFail (st : ScenarioState) (e : PyError) : HandlerResult :=
  { calls := [], error := some e, state := st }

/-- `_execute_wait`: `anvil_mine` for `blocks` (default 1). -/
def executeWait (oracle : Oracle) (rpc : String) (data : List (YVal × YVal))
    (st : ScenarioState) : HandlerResult :=
  let blocks := pyGetD data "blocks" (.vint 1)
  let cmd := ["cast", "rpc", "anvil_mine", pyStr blocks, "--rpc-url", rpc]
  let r := oracle cmd
  if r.returncode ≠ 0 then
    { calls := [cmd], error := some (.runtimeError ("Wait failed: " ++ r.stderr)), state := st }
  else { calls := [cmd], error := none, state := st }

/-- `_execute_mine`: `anvil_mine` for `blocks` (default 1). -/
def executeMine (oracle : Oracle) (rpc : String) (data : List (YVal × YVal))
    (st : ScenarioState) : HandlerResult :=
  let blocks := pyGetD data "blocks" (.vint 1)
  let cmd := ["cast", "rpc", "anvil_mine", pyStr blocks, "--rpc-url", rpc]
  let r := oracle cmd
  if r.returncode ≠ 0 then
    { calls := [cmd], error := some (.runtimeError ("Mine failed: " ++ r.stderr)), state := st }
  else { calls := [cmd], error := none, state := st }

/-- `_execute_time_travel`: `anvil_increaseTime` for `seconds` (default 0). -/
def executeTimeTravel (oracle : Oracle) (rpc : String) (data : List (YVal × YVal))
    (st : ScenarioState) : HandlerResult :=
  let seconds := pyGetD data "seconds" (.vint 0)
  let cmd := ["cast", "rpc", "anvil_increaseTime", pyStr seconds, "--rpc-url", rpc]
  let r := oracle cmd
  if r.returncode ≠ 0 then
    { calls := [cmd], error := some (.runtimeError ("Time travel failed: " ++ r.stderr)), state := st }
  else { calls := [cmd], error := none, state := st }

/-- `str.strip('"')`: drop leading and trailing double-quote runs. -/
def stripQuotes (s : String) : String :=
  String.mk (((s.data.dropWhile (· = '"')).reverse.dropWhile (· = '"')).reverse)

/-- `_execute_snapshot`: take `evm_snapshot` and bind the (possibly
auto-generated) name to the reported id. -/
def executeSnapshot (oracle : Oracle) (rpc : String) (data : List (YVal × YVal))
    (st : ScenarioState) : HandlerResult :=
  let nameV := pyGetD data "name" (.vstr ("snapshot_" ++ toString st.snapshots.length))
  let cmd := ["cast", "rpc", "evm_snapshot", "--rpc-url", rpc]
  let r := oracle cmd
  if r.returncode ≠ 0 then
    { calls := [cmd], error := some (.runtimeError ("Snapshot creation failed: " ++ r.stderr)),
      state := st }
  else
    let snapId := stripQuotes (pyStripS r.stdout)
    { calls := [cmd], error := none,
      state := { st with snapshots := dictSet st.snapshots nameV snapId } }

/-- The `evm_revert` command line for a snapshot id. -/
def revertCmd (rpc snapId : String) : List String :=
  ["cast", "rpc", "evm_revert", snapId, "--rpc-url", rpc]

/-- `_execute_revert`: an unknown (or missing) snapshot name raises
`ValueError` before any subprocess call; a known name issues `evm_revert`
and leaves all tables unchanged. -/
def executeRevert (oracle : Oracle) (rpc : String) (data : List (YVal × YVal))
    (st : ScenarioState) : HandlerResult :=
  let nameV := pyGetD data "name" .vnone
  match yfind st.snapshots nameV with
  | none => pureFail st (.valueError ("Snapshot not found: " ++ pyStr nameV))
  | some snapId =>
      let cmd := revertCmd rpc snapId
      let r := oracle cmd
      if r.returncode ≠ 0 then
        { calls := [cmd], error := some (.runtimeError ("Revert failed: " ++ r.stderr)),
          state := st }
      else { calls := [cmd], error := none, state := st }

/-- `_execute_set_balance`: `anvil_setBalance` with the raw `address` and
`balance` values (a non-string value makes `subprocess.run` raise). -/
def executeSetBalance (oracle : Oracle) (rpc : String) (data : List (YVal × YVal))
    (st : ScenarioState) : HandlerResult :=
  let address := pyGetD data "address" .vnone
  let balance := pyGetD data "balance" .vnone
  match runCmd oracle [.vstr "cast", .vstr "rpc", .vstr "anvil_setBalance",
                       address, balance, .vstr "--rpc-url", .vstr rpc] with
  | .error e => pureFail st e
  | .ok (cs, r) =>
      if r.returncode ≠ 0 then
        { calls := [cs], error := some (.runtimeError ("Set balance failed: " ++ r.stderr)),
          state := st }
      else { calls := [cs], error := none, state := st }

/-- `_execute_set_storage`: `anvil_setStorageAt` with raw `address`, `slot`,
`value`. -/
def executeSetStorage (oracle : Oracle) (rpc : String) (data : List (YVal × YVal))
    (st : ScenarioState) : HandlerResult :=
  let address := pyGetD data "address" .vnone
  let slot := pyGetD data "slot" .vnone
  let value := pyGetD data "value" .vnone
  match runCmd oracle [.vstr "cast", .vstr "rpc", .vstr "anvil_setStorageAt",
                       address, slot, value, .vstr "--rpc-url", .vstr rpc] with
  | .error e => pureFail st e
  | .ok (cs, r) =>
      if r.returncode ≠ 0 then
        { calls := [cs], error := some (.runtimeError ("Set storage failed: " ++ r.stderr)),
          state := st }
      else { calls := [cs], error := none, state := st }

/-- `_execute_label`: log only, no side effect. -/
def executeLabel (_data : List (YVal × YVal)) (st : ScenarioState) : HandlerResult :=
  { calls := [], error := none, state := st }

/-- The `$`-variable resolution of `_execute_assert`: a string starting with
`$` is looked up in the contracts table, then in the roles table. -/
def resolveDollar (v : YVal) (st : ScenarioState) : YVal :=
  match v with
  | .vstr s =>
      if headIs s '$' then
        match yfind st.contracts v with
        | some cv => cv
        | none =>
            match yfind st.roles v with
            | some role => role.address
            | none => v
      else v
  | _ => v

/-- `_execute_assert`: resolve `value`, then delegate to
`_check_expectation` on `str(value)`; no subprocess call. -/
def executeAssert (data : List (YVal × YVal)) (st : ScenarioState) : HandlerResult :=
  let v := resolveDollar (pyGetD data "value" .vnone) st
  let expected := pyGetD data "expect" .vnone
  match checkExpectation (pyStr v) expected with
  | .ok () => { calls := [], error := none, state := st }
  | .error e => pureFail st e

/-- `_execute_call`: resolve `to` through the contracts table, build the
`cast call` command (`fn` and the stringified `args` only when `fn` is
truthy), run it, and check an `expect`ation against the stripped stdout when
present. -/
def executeCall (oracle : Oracle) (rpc : String) (data : List (YVal × YVal))
    (st : ScenarioState) : HandlerResult :=
  let to0 := pyGetD data "to" .vnone
  let toV := (yfind st.contracts to0).getD to0
  let fn := pyGetD data "fn" (.vstr "")
  let argsV := pyGetD data "args" (.vlist [])
  let base := [YVal.vstr "cast", .vstr "call", .vstr "--rpc-url", .vstr rpc] ++
    (if pyTruthy toV then [toV] else [])
  let cmdE : Except PyError (List YVal) :=
    if pyTruthy fn then
      match pyIter argsV with
      | .error e => .error e
      | .ok args => .ok (base ++ fn :: args.map (fun a => .vstr (pyStr a)))
    else .ok base
  match cmdE with
  | .error e => pureFail st e
  | .ok cmd =>
      match runCmd oracle cmd with
      | .error e => pureFail st e
      | .ok (cs, r) =>
          if r.returncode ≠ 0 then
            { calls := [cs], error := some (.runtimeError ("Call failed: " ++ r.stderr)),
              state := st }
          else if hasKeyS data "expect" then
            match checkExpectation (pyStripS r.stdout) (pyGetD data "expect" .vnone) with
            | .ok () => { calls := [cs], error := none, state := st }
            | .error e => { calls := [cs], error := some e, state := st }
          else { calls := [cs], error := none, state := st }

/-- The placeholder address bound when no contract address can be extracted. -/
def zeroAddr : String := "0x0000000000000000000000000000000000000000"

/-- Scan stripped lines containing `0x` for the first whitespace-separated
token of the given length starting with `0x` (`cast create`/receipt output
parsing). -/
def scanLinesFor0x (len : Nat) : List (List Char) → Option String
  | [] => none
  | ln :: rest =>
      let ls := pyStripL ln
      if isSubL ['0', 'x'] ls then
        match (pySplitWsL ls).find? (fun p =>
            (match p with | '0' :: 'x' :: _ => true | _ => false) && p.length = len) with
        | some p => some (String.mk p)
        | none => scanLinesFor0x len rest
      else scanLinesFor0x len rest

/-- Address extraction from `cast create` stdout: only scanned when the
output contains `0x` at all; looks for a 42-character `0x` token. -/
def findAddr42 (output : String) : Option String :=
  if isSubL ['0', 'x'] output.data then
    scanLinesFor0x 42 (splitOnC '\n' output.data)
  else none

/-- Transaction-hash extraction: a 66-character `0x` token. -/
def findTx66 (output : String) : Option String :=
  scanLinesFor0x 66 (splitOnC '\n' output.data)

/-- Receipt scan of `_execute_deploy`: lines whose lower-cased text contains
`contractAddress` (which, containing an upper-case letter, never matches a
lower-cased line) or `contract address`, searched for a 42-character `0x`
token. -/
def findReceiptAddr : List (List Char) → Option String
  | [] => none
  | ln :: rest =>
      let ls := pyStripL ln
      if (isSubL "contractAddress".data (pyLowerL ls) ||
          isSubL "contract address".data (pyLowerL ls)) && isSubL ['0', 'x'] ls then
        match (pySplitWsL ls).find? (fun p =>
            (match p with | '0' :: 'x' :: _ => true | _ => false) && p.length = 42) with
        | some p => some (String.mk p)
        | none => findReceiptAddr rest
      else findReceiptAddr rest

/-- Bind a contract name to an address in the contracts table. -/
def bindContract (st : ScenarioState) (name : YVal) (addr : String) : ScenarioState :=
  { st with contracts := dictSet st.contracts name (.vstr addr) }

/-- `_execute_deploy`: resolve `from` via roles, run `cast create` with the
raw bytecode (when truthy) and stringified constructor args, extract the
contract address from stdout, fall back to the transaction receipt, then to
the all-zero placeholder, and bind the contract name. -/
def executeDeploy (oracle : Oracle) (rpc : String) (data : List (YVal × YVal))
    (st : ScenarioState) : HandlerResult :=
  let from0 := pyGetD data "from" .vnone
  let fromV := match yfind st.roles from0 with
    | some role => role.address
    | none => from0
  let contractName := pyGetD data "contract" .vnone
  let bytecode := pyGetD data "bytecode" (.vstr "")
  let argsV := pyGetD data "args" (.vlist [])
  match pyIter argsV with
  | .error e => pureFail st e
  | .ok args =>
      let base := [YVal.vstr "cast", .vstr "create", .vstr "--rpc-url", .vstr rpc] ++
        (if pyTruthy fromV then [YVal.vstr "--from", fromV] else [])
      let cmd := (if pyTruthy bytecode then base ++ [bytecode] else base) ++
        args.map (fun a => YVal.vstr (pyStr a))
      match runCmd oracle cmd with
      | .error e => pureFail st e
      | .ok (cs, r) =>
          if r.returncode ≠ 0 then
            { calls := [cs], error := some (.runtimeError ("Deploy failed: " ++ r.stderr)),
              state := st }
          else
            let output := pyStripS r.stdout
            match findAddr42 output with
            | some addr =>
                { calls := [cs], error := none, state := bindContract st contractName addr }
            | none =>
                match findTx66 output with
                | none =>
                    { calls := [cs], error := none,
                      state := bindContract st contractName zeroAddr }
                | some tx =>
                    let rcmd := ["cast", "receipt", tx, "--rpc-url", rpc]
                    let rr := oracle rcmd
                    let addr :=
                      if rr.returncode = 0 then
                        (findReceiptAddr (splitOnC '\n' (pyStripS rr.stdout).data)).getD zeroAddr
                      else zeroAddr
                    { calls := [cs, rcmd], error := none,
                      state := bindContract st contractName addr }

/-- The kinds `_execute_send`'s insufficient-data redirect recognises in a
`value` field. -/
def sendRedirectKinds : List String :=
  ["deploy", "call", "assert", "wait", "mine", "snapshot", "revert"]

/-- `TypeError` message for `self._execute_wait(step, scenario)` — the
method only takes `step`. -/
def waitArityMsg : String :=
  "ScenarioExecutor._execute_wait() takes 2 positional arguments but 3 were given"

/-- `TypeError` message for `self._execute_mine(step, scenario)`. -/
def mineArityMsg : String :=
  "ScenarioExecutor._execute_mine() takes 2 positional arguments but 3 were given"

/-- `_execute_send`.  When `from`, `to` and `fn` are all absent, a `value`
field naming a kind redirects to that kind's handler — except that the
`wait` and `mine` redirects call `self._execute_wait(step, scenario)` /
`self._execute_mine(step, scenario)`, which take only `step`, so CPython
raises `TypeError` at the call; with no recognised `value` the step fails
with the insufficient-data `ValueError`.  Otherwise `from` resolves through
roles, `to` through contracts, and `cast send` runs. -/
def executeSend (oracle : Oracle) (rpc : String) (data : List (YVal × YVal))
    (st : ScenarioState) : HandlerResult :=
  if !hasKeyS data "from" && !hasKeyS data "to" && !hasKeyS data "fn" then
    let insufficient := pureFail st (.valueError
      ("Insufficient data for SEND step. Required: 'from' or 'to' or 'fn'. Got: " ++
       pyRepr (.vlist (data.map Prod.fst))))
    if hasKeyS data "value" then
      match pyGetD data "value" .vnone with
      | .vstr s =>
          let sl := pyLowerS s
          if sendRedirectKinds.contains sl then
            if sl = "deploy" then executeDeploy oracle rpc data st
            else if sl = "call" then executeCall oracle rpc data st
            else if sl = "assert" then executeAssert data st
            else if sl = "wait" then pureFail st (.typeError waitArityMsg)
            else if sl = "mine" then pureFail st (.typeError mineArityMsg)
            else if sl = "snapshot" then executeSnapshot oracle rpc data st
            else executeRevert oracle rpc data st
          else insufficient
      | _ => insufficient
    else insufficient
  else
    let from0 := pyGetD data "from" .vnone
    let fromV := match yfind st.roles from0 with
      | some role => role.address
      | none => from0
    let to0 := pyGetD data "to" .vnone
    let toV := (yfind st.contracts to0).getD to0
    let fn := pyGetD data "fn" (.vstr "")
    let argsV := pyGetD data "args" (.vlist [])
    let base := [YVal.vstr "cast", .vstr "send", .vstr "--rpc-url", .vstr rpc] ++
      (if pyTruthy fromV then [YVal.vstr "--from", fromV] else []) ++
      (if pyTruthy toV then [toV] else [])
    let cmdE : Except PyError (List YVal) :=
      if pyTruthy fn then
        match pyIter argsV with
        | .error e => .error e
        | .ok args => .ok (base ++ fn :: args.map (fun a => .vstr (pyStr a)))
      else .ok base
    match cmdE with
    | .error e => pureFail st e
    | .ok cmd =>
        match runCmd oracle cmd with
        | .error e => pureFail st e
        | .ok (cs, r) =>
            if r.returncode ≠ 0 then
              { calls := [cs],
                error := some (.runtimeError ("Send transaction failed: " ++ r.stderr)),
                state := st }
            else { calls := [cs], error := none, state := st }

/-- The kinds `_execute_action` recognises in a `value` field. -/
def actionKinds : List String :=
  ["deploy", "send", "call", "assert", "wait", "mine", "snapshot", "revert"]

/-- `_execute_action`: the action type is `data.get('type', 'send')`; with no
`type` but a string `value` naming a kind, that kind (lower-cased) is used,
any other string `value` means `send`.  Only `send`, `call`, `deploy` and
`assert` dispatch to their handlers; every other action type (including
`wait`, `mine`, `snapshot`, `revert`) falls into the trailing
treat-as-`send` branch. -/
def executeAction (oracle : Oracle) (rpc : String) (data : List (YVal × YVal))
    (st : ScenarioState) : HandlerResult :=
  let at0 := pyGetD data "type" (.vstr "send")
  let at1 :=
    if !hasKeyS data "type" && hasKeyS data "value" then
      match pyGetD data "value" .vnone with
      | .vstr s =>
          if actionKinds.contains (pyLowerS s) then YVal.vstr (pyLowerS s)
          else .vstr "send"
      | _ => at0
    else at0
  if pyEq at1 (.vstr "send") then executeSend oracle rpc data st
  else if pyEq at1 (.vstr "call") then executeCall oracle rpc data st
  else if pyEq at1 (.vstr "deploy") then executeDeploy oracle rpc data st
  else if pyEq at1 (.vstr "assert") then executeAssert data st
  else executeSend oracle rpc data st

/-- `_execute_step`: dispatch on the canonical step kind. -/
def executeStep (oracle : Oracle) (rpc : String) (s : Step) (st : ScenarioState) :
    HandlerResult :=
  match s.type with
  | .SEND => executeSend oracle rpc s.data st
  | .CALL => executeCall oracle rpc s.data st
  | .WAIT => executeWait oracle rpc s.data st
  | .TIME_TRAVEL => executeTimeTravel oracle rpc s.data st
  | .SNAPSHOT => executeSnapshot oracle rpc s.data st
  | .REVERT => executeRevert oracle rpc s.data st
  | .ASSERT => executeAssert s.data st
  | .DEPLOY => executeDeploy oracle rpc s.data st
  | .MINE => executeMine oracle rpc s.data st
  | .SET_BALANCE => executeSetBalance oracle rpc s.data st
  | .SET_STORAGE => executeSetStorage oracle rpc s.data st
  | .LABEL => executeLabel s.data st
  | .ACTION => executeAction oracle rpc s.data st

/-- The `ExecutionResult` dataclass (wall-clock `execution_time` and the
always-empty `gas_used`/`events` fields are not modelled; `artifacts` holds
the final symbol tables on success and is the `__post_init__` default `{}`,
modelled as `none`, on failure). -/
structure ExecutionResult where
  success : Bool
  scenarioName : YVal
  stepsExecuted : Nat
  totalSteps : Nat
  artifacts : Option ScenarioState
  error : Option String
deriving Repr

/-- The step loop of `execute_scenario`: run steps in order, counting the
completed ones, and stop at the first step whose handler raises.  Returns
the completed count, the tables as left by the last handler, and the raised
exception if any. -/
def runStepsLoop (ex : Step → ScenarioState → HandlerResult) :
    List Step → ScenarioState → Nat → Nat × ScenarioState × Option PyError
  | [], st, n => (n, st, none)
  | s :: rest, st, n =>
      let r := ex s st
      match r.error with
      | some e => (n, r.state, some e)
      | none => runStepsLoop ex rest r.state (n + 1)

/-- `execute_scenario` from the point where the step loop starts: RPC
liveness probing and `_prepare_roles` precede the loop and are abstracted
into the initial tables `st0` (they only affect the role table, not the
per-step failure behaviour).  The `try/except` at the run boundary converts
a raised exception into a failed `ExecutionResult` carrying the partial step
count, the total step count and `str(e)`. -/
def executeScenario (oracle : Oracle) (rpc : String) (name : YVal)
    (steps : List Step) (st0 : ScenarioState) : ExecutionResult :=
  match runStepsLoop (executeStep oracle rpc) steps st0 0 with
  | (n, stF, none) =>
      { success := true, scenarioName := name, stepsExecuted := n,
        totalSteps := steps.length, artifacts := some stF, error := none }
  | (n, _, some e) =>
      { success := false, scenarioName := name, stepsExecuted := n,
        totalSteps := steps.length, artifacts := none, error := some (errMsg e) }

/-! ### Concrete fixtures used by witnesses -/

/-- An oracle on which every subprocess call succeeds with empty output. -/
def oracleOk : Oracle := fun _ => ⟨0, "", ""⟩

/-- Empty symbol tables. -/
def emptyState : ScenarioState := ⟨[], [], []⟩

/-- A bare `label` step. -/
def labelStep : Step := ⟨.LABEL, [], .vnone, .vnone, .vnone⟩

/-- A `revert` step with no data (hence no snapshot name). -/
def revertStep : Step := ⟨.REVERT, [], .vnone, .vnone, .vnone⟩

/-- The non-idempotence input for the text normalizer. -/
def nestedBraceInput : String := "$\x7b$\x7ba\x7d\x7d"

/-! ### Helper lemmas -/

/-- A successful association-list lookup returns one of the stored values. -/
theorem lookupStr_mem : ∀ (l : List (String × String)) (k v : String),
    lookupStr l k = some v → v ∈ l.map Prod.snd := by
  intro l
  induction l with
  | nil => intro k v h; simp [lookupStr] at h
  | cons p rest ih =>
      intro k v h
      rw [lookupStr] at h
      by_cases hk : p.1 == k
      · simp [hk] at h
        simp [← h]
      · simp [hk] at h
        exact List.mem_cons_of_mem _ (ih k v h)

/-- Every alias value is a canonical kind name. -/
theorem aliasTable_values_mem : ∀ v ∈ aliasTable.map Prod.snd, v ∈ stepKindNames := by
  decide

/-- Every canonical kind name has a `StepType` constructor. -/
theorem stepTypeOfString_mem_isSome : ∀ s ∈ stepKindNames, (stepTypeOfString s).isSome := by
  decide

/-- The best-match loop picks either the running best or a list element. -/
theorem pickBest_mem (t : String) :
    ∀ (l : List String) (b : String), pickBest t l b ∈ b :: l := by
  intro l
  induction l with
  | nil => intro b; simp [pickBest]
  | cons s rest ih =>
      intro b
      rw [pickBest]
      by_cases h1 : isSubS (pyLowerS s) (pyLowerS t) = true
      · rw [if_pos h1]; simp
      · rw [if_neg h1]
        by_cases h2 : b.length < s.length
        · rw [if_pos h2]
          rcases List.mem_cons.mp (ih s) with h | h
          · rw [h]; simp
          · exact List.mem_cons_of_mem _ (List.mem_cons_of_mem _ h)
        · rw [if_neg h2]
          rcases List.mem_cons.mp (ih b) with h | h
          · rw [h]; simp
          · exact List.mem_cons_of_mem _ (List.mem_cons_of_mem _ h)

/-- Members of the similarity scan are canonical kind names. -/
theorem similarTypes_mem (t : String) : ∀ x ∈ similarTypes t, x ∈ stepKindNames := by
  intro x hx
  rw [similarTypes] at hx
  exact List.mem_of_mem_filter hx

/-- The canonicalizer's string choice always lies in the closed kind set. -/
theorem canonToken_mem (t : String) : canonToken t ∈ stepKindNames := by
  rw [canonToken]
  cases hl : lookupStr aliasTable (pyLowerS t) with
  | some v =>
      have hv : v ∈ stepKindNames := aliasTable_values_mem v (lookupStr_mem _ _ _ hl)
      simp [List.elem_eq_true_of_mem hv, hv]
  | none =>
      simp only
      by_cases hc : stepKindNames.contains t
      · simp only [hc, if_true]
        exact List.mem_of_elem_eq_true hc
      · simp only [hc, Bool.false_eq_true, if_false]
        cases hs : similarTypes t with
        | nil => show ("action" : String) ∈ stepKindNames; decide
        | cons s rest =>
            show pickBest t (s :: rest) s ∈ stepKindNames
            rcases List.mem_cons.mp (pickBest_mem t (s :: rest) s) with h | h
            · rw [h]
              exact similarTypes_mem t s (by rw [hs]; exact List.mem_cons_self _ _)
            · exact similarTypes_mem t _ (by rw [hs]; exact h)

/-- C2's no-match condition: the token is no alias, no exact kind, and the
similarity scan finds nothing. -/
def noFuzzyMatch (t : String) : Prop :=
  lookupStr aliasTable (pyLowerS t) = none ∧
  stepKindNames.contains t = false ∧
  similarTypes t = []

/-! ### Claim theorems -/

/-- C1: if executing step `i` (the first step after the successful prefix
`pre`, so `i = pre.length`) raises an exception, `execute_scenario` returns —
rather than propagates — a failed `ExecutionResult` with
`steps_executed = i`, `total_steps` the scenario's step count, and `error`
the text of the raised exception; the loop stops, so no later step runs. -/
theorem execute_scenario_stops_at_failure (oracle : Oracle) (rpc : String)
    (name : YVal) (pre post : List Step) (s : Step) (st0 sti : ScenarioState)
    (e : PyError)
    (hpre : runStepsLoop (executeStep oracle rpc) pre st0 0 = (pre.length, sti, none))
    (hstep : (executeStep oracle rpc s sti).error = some e) :
    executeScenario oracle rpc name (pre ++ s :: post) st0 =
      { success := false, scenarioName := name, stepsExecuted := pre.length,
        totalSteps := (pre ++ s :: post).length, artifacts := none,
        error := some (errMsg e) } := by
  have happ : ∀ (l1 l2 : List Step) (st : ScenarioState) (n k : Nat)
      (st' : ScenarioState),
      runStepsLoop (executeStep oracle rpc) l1 st n = (k, st', none) →
      runStepsLoop (executeStep oracle rpc) (l1 ++ l2) st n =
        runStepsLoop (executeStep oracle rpc) l2 st' k := by
    intro l1
    induction l1 with
    | nil =>
        intro l2 st n k st' h
        rw [runStepsLoop] at h
        simp only [Prod.mk.injEq] at h
        obtain ⟨rfl, rfl, -⟩ := h
        simp
    | cons a rest ih =>
        intro l2 st n k st' h
        rw [runStepsLoop] at h
        rw [List.cons_append]
        simp only [runStepsLoop]
        cases he : (executeStep oracle rpc a st).error with
        | some e' =>
            rw [he] at h
            simp at h
        | none =>
            rw [he] at h
            simp only [he]
            exact ih l2 _ _ _ _ h
  have hrun : runStepsLoop (executeStep oracle rpc) (pre ++ s :: post) st0 0 =
      (pre.length, (executeStep oracle rpc s sti).state, some e) := by
    rw [happ pre (s :: post) st0 0 pre.length sti hpre]
    simp only [runStepsLoop, hstep]
  rw [executeScenario, hrun]

/-- C1 witness: a two-step scenario whose second step reverts to an unbound
snapshot fails with one step executed out of two. -/
theorem execute_scenario_stops_at_failure_witness :
    executeScenario oracleOk "http://localhost:8545" (.vstr "w")
        ([labelStep] ++ revertStep :: []) emptyState =
      { success := false, scenarioName := .vstr "w", stepsExecuted := 1,
        totalSteps := 2, artifacts := none,
        error := some "Snapshot not found: None" } :=
  execute_scenario_stops_at_failure oracleOk "http://localhost:8545" (.vstr "w")
    [labelStep] [] revertStep emptyState emptyState
    (.valueError "Snapshot not found: None") (by rfl) (by rfl)

/-- C2: canonicalization is total — for every (non-empty) token the chosen
kind exists and lies in the closed 13-kind `StepType` set (so `StepType(...)`
never raises), and a token matching no kind, no alias and nothing in the
similarity scan canonicalizes to `action`. -/
theorem canonicalize_total (token : String) (_hne : token ≠ "") :
    (∃ k : StepType, canonicalizeToken token = some k) ∧
    (noFuzzyMatch token → canonicalizeToken token = some StepType.ACTION) := by
  constructor
  · have h1 := canonToken_mem token
    have h2 := stepTypeOfString_mem_isSome _ h1
    exact Option.isSome_iff_exists.mp h2
  · rintro ⟨ha, hc, hs⟩
    rw [canonicalizeToken, canonToken, ha]
    simp only [hc, Bool.false_eq_true, if_false, hs]
    rfl

/-- C2 witness: `frobnicate` matches nothing and canonicalizes to `action`. -/
theorem canonicalize_total_witness :
    ("frobnicate" : String) ≠ "" ∧
    canonicalizeToken "frobnicate" = some StepType.ACTION :=
  ⟨by decide,
   (canonicalize_total "frobnicate" (by decide)).2 ⟨by decide, by decide, by decide⟩⟩

/-- C3 (code bug): the text normalizer is not idempotent.  On the input
`${${a}}` the first pass rewrites the outer `${...}` (whose body is `${a`)
to `"$${a"` leaving the final `}` behind; the second pass then re-fires the
same rule on `${a"}` and yields a different string, violating the spec's
idempotence contract. -/
theorem normalize_not_idempotent :
    normalizeYamlVariables nestedBraceInput = "\"$$\x7ba\"\x7d" ∧
    normalizeYamlVariables (normalizeYamlVariables nestedBraceInput) = "\"$\"$a\"\"" ∧
    normalizeYamlVariables (normalizeYamlVariables nestedBraceInput) ≠
      normalizeYamlVariables nestedBraceInput := by
  refine ⟨by decide, by decide, by decide⟩

/-- C4 counterexample: a `>=` expectation with the well-formed numeric
operand `99` raises `ValueError`, not `AssertionError` — the `>` branch
strips only the `>` and `int("=99")` fails. -/
theorem check_ge_raises_value_error :
    checkExpectationStr "100" ">=99" =
      .error (.valueError "invalid literal for int() with base 10: '=99'") := rfl

/-- C4 amended: `==`/`!=` pass or raise `AssertionError`; `>=` and `<=`
always raise `ValueError` (their operand, read by the `>`/`<` branch as
`=...`, never parses as an integer); `contains` and `exists` expectations
raise `ValueError` as unsupported formats. -/
theorem check_expectation_operator_behavior (a v : String) :
    (∃ m, checkExpectationStr a (">=" ++ v) = .error (.valueError m)) ∧
    (∃ m, checkExpectationStr a ("<=" ++ v) = .error (.valueError m)) ∧
    (checkExpectationStr a ("==" ++ v) = .ok () ∨
      ∃ m, checkExpectationStr a ("==" ++ v) = .error (.assertionError m)) ∧
    (checkExpectationStr a ("!=" ++ v) = .ok () ∨
      ∃ m, checkExpectationStr a ("!=" ++ v) = .error (.assertionError m)) ∧
    (∃ m, checkExpectationStr a ("contains " ++ v) = .error (.valueError m)) ∧
    (∃ m, checkExpectationStr a ("exists " ++ v) = .error (.valueError m)) := by
  have hstrip : ∀ w : List Char, pyStripL ('=' :: w) = '=' :: pyRstrip w := by
    intro w
    have h0 : isPyWs '=' = false := by decide
    simp [pyStripL, pyLstrip, List.dropWhile_cons, h0, pyRstrip]
  have hint : ∀ w : List Char, pyIntL 10 ('=' :: w) = none := by
    intro w
    unfold pyIntL
    rw [hstrip w]
    have h1 : ('=' : Char) = '+' ↔ False := by decide
    have h2 : ('=' : Char) = '-' ↔ False := by decide
    have h3 : digitVal 10 '=' = none := by decide
    have h4 : ('=' : Char) = '_' ↔ False := by decide
    simp [h1, h2, h3, h4, magPrefixed, magStart]
  refine ⟨?_, ?_, ?_, ?_, ?_, ?_⟩
  · have harm : checkExpectationStr a (">=" ++ v) =
        (match pyIntL 10 (pyStripL ('=' :: v.data)) with
         | none => Except.error (.valueError
             ("invalid literal for int() with base 10: '" ++
              String.mk (pyStripL ('=' :: v.data)) ++ "'"))
         | some ev =>
             match pyActualInt a.data with
             | .error e => .error e
             | .ok av =>
                 if av ≤ ev then
                   .error (.assertionError
                     ("Expected > " ++ toString ev ++ ", got " ++ toString av))
                 else .ok ()) := rfl
    exact ⟨_, by rw [harm, hstrip, hint]⟩
  · have harm : checkExpectationStr a ("<=" ++ v) =
        (match pyIntL 10 (pyStripL ('=' :: v.data)) with
         | none => Except.error (.valueError
             ("invalid literal for int() with base 10: '" ++
              String.mk (pyStripL ('=' :: v.data)) ++ "'"))
         | some ev =>
             match pyActualInt a.data with
             | .error e => .error e
             | .ok av =>
                 if ev ≤ av then
                   .error (.assertionError
                     ("Expected < " ++ toString ev ++ ", got " ++ toString av))
                 else .ok ()) := rfl
    exact ⟨_, by rw [harm, hstrip, hint]⟩
  · have harm : checkExpectationStr a ("==" ++ v) =
        (if a.data == pyStripL v.data then Except.ok ()
         else Except.error (.assertionError
           ("Expected " ++ String.mk (pyStripL v.data) ++ ", got " ++ String.mk a.data))) :=
      rfl
    by_cases h : a.data == pyStripL v.data
    · left; rw [harm, if_pos h]
    · right; exact ⟨_, by rw [harm, if_neg h]⟩
  · have harm : checkExpectationStr a ("!=" ++ v) =
        (if a.data == pyStripL v.data then
           Except.error (.assertionError
             ("Expected not " ++ String.mk (pyStripL v.data) ++ ", got " ++ String.mk a.data))
         else Except.ok ()) := rfl
    by_cases h : a.data == pyStripL v.data
    · right; exact ⟨_, by rw [harm, if_pos h]⟩
    · left; rw [harm, if_neg h]
  · exact ⟨_, rfl⟩
  · exact ⟨_, rfl⟩

/-- C5: numeric coercion in `>` expectations — a `0x`-prefixed actual is
read as hex, a bare one as decimal, then compared numerically. -/
theorem check_numeric_coercion :
    checkExpectationStr "0x64" ">99" = .ok () ∧
    checkExpectationStr "100" ">99" = .ok () ∧
    checkExpectationStr "99" ">99" =
      .error (.assertionError "Expected > 99, got 99") :=
  ⟨rfl, rfl, rfl⟩

/-- C6 counterexample: the token `action` — itself a canonical kind name —
does not canonicalize to itself: the alias table is consulted before the
exact-match test and maps it to `send`. -/
theorem canonicalize_action_maps_to_send :
    canonicalizeToken "action" = some StepType.SEND ∧
    StepType.SEND ≠ StepType.ACTION :=
  ⟨rfl, by decide⟩

/-- C6 amended: every canonical kind name other than `action` canonicalizes
to itself (for those tokens the alias table, applied first, has no entry, so
the exact match wins); `action` alone is rewritten to `send` by the alias
table. -/
theorem canonicalize_exact_non_action (k : StepType) (h : k ≠ StepType.ACTION) :
    canonicalizeToken (stepTypeValue k) = some k := by
  cases k <;> first | rfl | exact absurd rfl h

/-- C6 amended witness at `send`. -/
theorem canonicalize_exact_non_action_witness :
    StepType.SEND ≠ StepType.ACTION ∧
    canonicalizeToken (stepTypeValue StepType.SEND) = some StepType.SEND :=
  ⟨by decide, canonicalize_exact_non_action StepType.SEND (by decide)⟩

/-- C7: a `revert` step whose (possibly missing) snapshot name is not bound
in the snapshot table raises `ValueError` naming the offending value, with
no subprocess/RPC call issued and all symbol tables unchanged. -/
theorem revert_unknown_snapshot_no_rpc (oracle : Oracle) (rpc : String)
    (data : List (YVal × YVal)) (st : ScenarioState)
    (h : yfind st.snapshots (pyGetD data "name" .vnone) = none) :
    executeRevert oracle rpc data st =
      { calls := [],
        error := some (.valueError
          ("Snapshot not found: " ++ pyStr (pyGetD data "name" .vnone))),
        state := st } := by
  rw [executeRevert, h]
  rfl

/-- C7 witness: a data-less revert step on empty tables. -/
theorem revert_unknown_snapshot_no_rpc_witness :
    executeRevert oracleOk "http://localhost:8545" [] emptyState =
      { calls := [], error := some (.valueError "Snapshot not found: None"),
        state := emptyState } :=
  revert_unknown_snapshot_no_rpc oracleOk "http://localhost:8545" [] emptyState (by rfl)

/-- C8: a successful revert issues exactly the `evm_revert` call and leaves
every table — in particular the snapshot table, which keeps the entry
reverted to — unchanged, so the same name can be reverted to again. -/
theorem revert_preserves_snapshot_table (oracle : Oracle) (rpc : String)
    (data : List (YVal × YVal)) (st : ScenarioState) (snapId : String)
    (hfind : yfind st.snapshots (pyGetD data "name" .vnone) = some snapId)
    (hok : (oracle (revertCmd rpc snapId)).returncode = 0) :
    executeRevert oracle rpc data st =
      { calls := [revertCmd rpc snapId], error := none, state := st } := by
  rw [executeRevert, hfind]
  simp [hok]

/-- C8 witness: reverting to a bound snapshot under a succeeding oracle. -/
theorem revert_preserves_snapshot_table_witness :
    executeRevert oracleOk "http://localhost:8545"
        [(.vstr "name", .vstr "s1")] ⟨[], [], [(.vstr "s1", "0xa")]⟩ =
      { calls := [revertCmd "http://localhost:8545" "0xa"], error := none,
        state := ⟨[], [], [(.vstr "s1", "0xa")]⟩ } :=
  revert_preserves_snapshot_table oracleOk "http://localhost:8545"
    [(.vstr "name", .vstr "s1")] ⟨[], [], [(.vstr "s1", "0xa")]⟩ "0xa"
    (by rfl) (by rfl)

/-- C9 (code bug): an `action` step with no `type` field and `value: wait`
is *not* re-dispatched to the wait handler: `_execute_action` falls into its
treat-as-`send` branch, and `_execute_send`'s redirect then calls
`self._execute_wait(step, scenario)` — a method taking only `step` — so the
run dies with a `TypeError` before any RPC call instead of mining a block. -/
theorem action_value_wait_raises_type_error (oracle : Oracle) (rpc : String)
    (st : ScenarioState) :
    executeAction oracle rpc [(.vstr "value", .vstr "wait")] st =
      { calls := [], error := some (.typeError waitArityMsg), state := st } := rfl

/-- C10 counterexample: a mapping with `name`, no `steps`, and a second key
(`roles: 0`) is not the single-key shape the claim says is the only rejected
one — yet parsing still raises (`.items()` on the int), so "succeeds with
any additional key" is false. -/
theorem parse_name_extra_key_still_raises :
    parseScenario [(.vstr "name", .vstr "x"), (.vstr "roles", .vint 0)] =
      .error (.attributeError "'int' object has no attribute 'items'") ∧
    hasKeyS [(.vstr "name", .vstr "x"), (.vstr "roles", .vint 0)] "name" = true ∧
    hasKeyS [(.vstr "name", .vstr "x"), (.vstr "roles", .vint 0)] "steps" = false ∧
    [(YVal.vstr "name", YVal.vstr "x"), (.vstr "roles", .vint 0)].length = 2 :=
  ⟨rfl, rfl, rfl, rfl⟩

/-- C10 amended: the missing-`steps` rejection fires exactly on the bare
single-key `{name: ...}` mapping; with an additional *well-formed* key such
as `description` parsing succeeds and yields an empty step list (malformed
extra keys, e.g. a non-mapping `roles`, can still fail for their own
reasons). -/
theorem parse_missing_steps_behavior (v n d : YVal) :
    parseScenario [(.vstr "name", v)] =
      .error (.valueError "Invalid scenario format: missing 'steps' field") ∧
    parseScenario [(.vstr "name", n), (.vstr "description", d)] =
      .ok { name := n, description := d, roles := [], steps := [],
            contracts := .vdict [], timeout := .vint 300,
            gasLimit := .vint 30000000 } :=
  ⟨rfl, rfl⟩

end ScenarioSpec
